import Mathlib

/-!
Verification of the deep-zoom tiler/viewer.

The development shallowly embeds the two subsystems of the repository:

* the viewport renderer of src/components/ImageExplorer.tsx
  (namespace Explorer) and its duplicate embedded in the standalone
  export HTML of createStandaloneHtml (namespace Standalone);
* the pyramid builder of the web-worker script in ImageSplitter
  (namespace Worker), together with the zip-loading path handleZipFile
  (namespace Zip).

JavaScript numbers are modelled as exact rationals; canvas and bitmap
dimensions, which are integral in the source, as integers.  Math.floor
and Math.ceil become Int.floor and Int.ceil, Math.log2 composed with
Math.ceil becomes Int.clog 2, and Math.max / Math.min become max / min.
-/

namespace DeepZoom

/-- Fixed tile size constant, from src/unnamed/part_000 line 1:
TILE_SIZE = 128. -/
def TILE_SIZE : ℕ := 128

/-- Width/height pair, as used for originalDimensions, worldSize,
viewSize and viewportSize throughout the explorer. -/
structure Dims where
  width : ℚ
  height : ℚ
  deriving DecidableEq

/-- Pan offset or screen point, a pair of JS numbers. -/
structure Pan where
  x : ℚ
  y : ℚ
  deriving DecidableEq

/-- Viewport state of the explorer component: the three pieces of
state mutated by getInitialState, handleZoom and handlePan. -/
structure ViewportState where
  zoomIndex : ℤ
  minZoomIndex : ℤ
  pan : Pan
  deriving DecidableEq

/-- Pan directions accepted by handlePan. -/
inductive Direction where
  | up
  | down
  | left
  | right
  deriving DecidableEq

namespace Explorer

/-- One axis of clampPan (ImageExplorer.tsx lines 119-129): if the
world is smaller than the view the pan is forced to
(world - view) / 2, otherwise it is clamped into [0, world - view]
by Math.max(0, Math.min(x, world - view)). -/
def clampAxis (p world view : ℚ) : ℚ :=
  if world < view then (world - view) / 2
  else max 0 (min p (world - view))

/-- clampPan from ImageExplorer.tsx lines 119-129, applied per axis. -/
def clampPan (newPan : Pan) (worldSize viewSize : Dims) : Pan :=
  { x := clampAxis newPan.x worldSize.width viewSize.width
    y := clampAxis newPan.y worldSize.height viewSize.height }

/-- Scale factor of level i: 2 ** (numLevels - 1 - i), as computed in
getInitialState, handleZoom, handlePan (ImageExplorer.tsx lines 136,
143, 218-219, 245). -/
def scaleOf (numLevels i : ℤ) : ℚ :=
  (2 : ℚ) ^ (numLevels - 1 - i)

/-- World dimensions of level i as the renderer computes them:
originalDimensions divided directly by the scale factor
(ImageExplorer.tsx lines 137-138, 144-145, 222-223, 246-247). -/
def worldSizeAt (orig : Dims) (numLevels i : ℤ) : Dims :=
  { width := orig.width / scaleOf numLevels i
    height := orig.height / scaleOf numLevels i }

/-- Loop body of the getInitialState scan (ImageExplorer.tsx lines
134-141): starting from baseIndex = 0, walk i upwards; break as soon
as level i exceeds the viewport on either axis, otherwise record
baseIndex = i and continue. -/
def baseIndexGo (orig : Dims) (numLevels : ℤ) (vp : Dims) :
    ℕ → ℤ → ℤ → ℤ
  | 0, _, acc => acc
  | fuel + 1, i, acc =>
    if (worldSizeAt orig numLevels i).width > vp.width ∨
        (worldSizeAt orig numLevels i).height > vp.height then acc
    else baseIndexGo orig numLevels vp fuel (i + 1) i

/-- Result of the getInitialState scan over levels 0..numLevels-1. -/
def getBaseIndex (orig : Dims) (numLevels : ℤ) (vp : Dims) : ℤ :=
  baseIndexGo orig numLevels vp numLevels.toNat 0 0

/-- getInitialState (ImageExplorer.tsx lines 131-152): none when the
viewport width is still zero, otherwise the initial ViewportState. -/
def getInitialState (orig : Dims) (numLevels : ℤ) (vp : Dims) :
    Option ViewportState :=
  if vp.width = 0 then none
  else
    let baseIndex := getBaseIndex orig numLevels vp
    some { zoomIndex := baseIndex
           minZoomIndex := baseIndex
           pan := clampPan { x := 0, y := 0 }
             (worldSizeAt orig numLevels baseIndex) vp }

/-- handleZoom (ImageExplorer.tsx lines 212-234). -/
def handleZoom (orig : Dims) (numLevels : ℤ) (vp : Dims)
    (s : ViewportState) (newZoomIndex : ℤ) (screenPoint : Pan) :
    ViewportState :=
  if newZoomIndex = s.zoomIndex then s
  else
    let clampedNewZoomIndex :=
      max s.minZoomIndex (min newZoomIndex (numLevels - 1))
    let oldScale := scaleOf numLevels s.zoomIndex
    let newScale := scaleOf numLevels clampedNewZoomIndex
    let zoomFactor := oldScale / newScale
    let newWorld := worldSizeAt orig numLevels clampedNewZoomIndex
    let newPanX := (s.pan.x + screenPoint.x) * zoomFactor - screenPoint.x
    let newPanY := (s.pan.y + screenPoint.y) * zoomFactor - screenPoint.y
    { zoomIndex := clampedNewZoomIndex
      minZoomIndex := s.minZoomIndex
      pan := clampPan { x := newPanX, y := newPanY } newWorld vp }

/-- handlePan (ImageExplorer.tsx lines 236-250): shift the pan by 25
percent of the viewport on the chosen axis, then reclamp against the
current level world size. -/
def handlePan (orig : Dims) (numLevels : ℤ) (vp : Dims)
    (s : ViewportState) (direction : Direction) : ViewportState :=
  let panAmount : ℚ := 0.25
  let newPan : Pan :=
    match direction with
    | Direction.left => { x := s.pan.x - vp.width * panAmount, y := s.pan.y }
    | Direction.right => { x := s.pan.x + vp.width * panAmount, y := s.pan.y }
    | Direction.up => { x := s.pan.x, y := s.pan.y - vp.height * panAmount }
    | Direction.down => { x := s.pan.x, y := s.pan.y + vp.height * panAmount }
  { s with pan :=
      clampPan newPan (worldSizeAt orig numLevels s.zoomIndex) vp }

/-- Visible tile range of the frame-composition effect
(ImageExplorer.tsx lines 176-179): (startCol, endCol, startRow,
endRow). -/
def visibleRange (pan : Pan) (vp : Dims) : ℤ × ℤ × ℤ × ℤ :=
  (⌊pan.x / (TILE_SIZE : ℚ)⌋,
   ⌈(pan.x + vp.width) / (TILE_SIZE : ℚ)⌉,
   ⌊pan.y / (TILE_SIZE : ℚ)⌋,
   ⌈(pan.y + vp.height) / (TILE_SIZE : ℚ)⌉)

end Explorer

namespace Standalone

/-- clampPan of the standalone export HTML (src/unnamed/part_000
lines 947-954), one axis. -/
def clampAxis (p world view : ℚ) : ℚ :=
  if world < view then (world - view) / 2
  else max 0 (min p (world - view))

/-- clampPan of the standalone export HTML (part_000 lines 947-954). -/
def clampPan (newPan : Pan) (worldSize viewSize : Dims) : Pan :=
  { x := clampAxis newPan.x worldSize.width viewSize.width
    y := clampAxis newPan.y worldSize.height viewSize.height }

/-- Scale factor 2 ** (numLevels - 1 - i) in the standalone HTML
(part_000 lines 960, 966, 1035-1036, 1058). -/
def scaleOf (numLevels i : ℤ) : ℚ :=
  (2 : ℚ) ^ (numLevels - 1 - i)

/-- Level world size in the standalone HTML (part_000 lines 961-962,
967-968, 1038-1039, 1059-1060). -/
def worldSizeAt (orig : Dims) (numLevels i : ℤ) : Dims :=
  { width := orig.width / scaleOf numLevels i
    height := orig.height / scaleOf numLevels i }

/-- Scan loop of getInitialState in the standalone HTML (part_000
lines 958-965). -/
def baseIndexGo (orig : Dims) (numLevels : ℤ) (vp : Dims) :
    ℕ → ℤ → ℤ → ℤ
  | 0, _, acc => acc
  | fuel + 1, i, acc =>
    if (worldSizeAt orig numLevels i).width > vp.width ∨
        (worldSizeAt orig numLevels i).height > vp.height then acc
    else baseIndexGo orig numLevels vp fuel (i + 1) i

/-- Result of the standalone getInitialState scan. -/
def getBaseIndex (orig : Dims) (numLevels : ℤ) (vp : Dims) : ℤ :=
  baseIndexGo orig numLevels vp numLevels.toNat 0 0

/-- getInitialState of the standalone HTML (part_000 lines 956-974). -/
def getInitialState (orig : Dims) (numLevels : ℤ) (vp : Dims) :
    Option ViewportState :=
  if vp.width = 0 then none
  else
    let baseIndex := getBaseIndex orig numLevels vp
    some { zoomIndex := baseIndex
           minZoomIndex := baseIndex
           pan := clampPan { x := 0, y := 0 }
             (worldSizeAt orig numLevels baseIndex) vp }

/-- handleZoom of the standalone HTML (part_000 lines 1031-1048). -/
def handleZoom (orig : Dims) (numLevels : ℤ) (vp : Dims)
    (s : ViewportState) (newZoomIndex : ℤ) (screenPoint : Pan) :
    ViewportState :=
  if newZoomIndex = s.zoomIndex then s
  else
    let clampedNewZoomIndex :=
      max s.minZoomIndex (min newZoomIndex (numLevels - 1))
    let oldScale := scaleOf numLevels s.zoomIndex
    let newScale := scaleOf numLevels clampedNewZoomIndex
    let zoomFactor := oldScale / newScale
    let newWorld := worldSizeAt orig numLevels clampedNewZoomIndex
    let newPanX := (s.pan.x + screenPoint.x) * zoomFactor - screenPoint.x
    let newPanY := (s.pan.y + screenPoint.y) * zoomFactor - screenPoint.y
    { zoomIndex := clampedNewZoomIndex
      minZoomIndex := s.minZoomIndex
      pan := clampPan { x := newPanX, y := newPanY } newWorld vp }

/-- handlePan of the standalone HTML (part_000 lines 1050-1063). -/
def handlePan (orig : Dims) (numLevels : ℤ) (vp : Dims)
    (s : ViewportState) (direction : Direction) : ViewportState :=
  let panAmount : ℚ := 0.25
  let newPan : Pan :=
    match direction with
    | Direction.left => { x := s.pan.x - vp.width * panAmount, y := s.pan.y }
    | Direction.right => { x := s.pan.x + vp.width * panAmount, y := s.pan.y }
    | Direction.up => { x := s.pan.x, y := s.pan.y - vp.height * panAmount }
    | Direction.down => { x := s.pan.x, y := s.pan.y + vp.height * panAmount }
  { s with pan :=
      clampPan newPan (worldSizeAt orig numLevels s.zoomIndex) vp }

/-- Visible tile range of the standalone HTML frame-composition
effect (part_000 lines 997-1000). -/
def visibleRange (pan : Pan) (vp : Dims) : ℤ × ℤ × ℤ × ℤ :=
  (⌊pan.x / (TILE_SIZE : ℚ)⌋,
   ⌈(pan.x + vp.width) / (TILE_SIZE : ℚ)⌉,
   ⌊pan.y / (TILE_SIZE : ℚ)⌋,
   ⌈(pan.y + vp.height) / (TILE_SIZE : ℚ)⌉)

end Standalone

namespace Worker

/-- Level count computed by the worker script (part_000 lines 98-99):
Math.ceil(Math.log2(maxDim / TILE_SIZE)) + 1 with
maxDim = Math.max(width, height).  The python script (part_000 lines
194-195) computes the same expression, guarded only against
max_dim = 0.  Int.clog 2 is the exact ceiling base-2 logarithm. -/
def numLevels (w h : ℕ) : ℤ :=
  Int.clog 2 (((max w h : ℕ) : ℚ) / (TILE_SIZE : ℚ)) + 1

/-- Iterated floor halving: nextWidth = Math.floor(levelWidth / 2)
applied k times (part_000 lines 140-141 and 229-230). -/
def halveIter : ℕ → ℕ → ℕ
  | 0, w => w
  | k + 1, w => halveIter k (w / 2)

/-- Pixel size of one axis of pyramid level i: the source dimension
floor-halved once per step from the finest level numLevels-1 down to
level i (the currentCanvas chain of part_000 lines 103-149). -/
def levelSize (d : ℕ) (numLevels level : ℤ) : ℕ :=
  halveIter (numLevels - 1 - level).toNat d

/-- Column count of a level grid: Math.ceil(levelWidth / TILE_SIZE)
(part_000 line 113). -/
def colsOf (levelW : ℤ) : ℤ :=
  ⌈(levelW : ℚ) / (TILE_SIZE : ℚ)⌉

/-- Row count of a level grid: Math.ceil(levelHeight / TILE_SIZE)
(part_000 line 114). -/
def rowsOf (levelH : ℤ) : ℤ :=
  ⌈(levelH : ℚ) / (TILE_SIZE : ℚ)⌉

/-- Geometry of one emitted tile: the OffscreenCanvas dimensions, the
source crop rectangle and the destination rectangle of the drawImage
call (part_000 lines 120-128); the python script mirrors this with
crop + embed (part_000 lines 212-223). -/
structure Tile where
  canvasWidth : ℤ
  canvasHeight : ℤ
  sx : ℤ
  sy : ℤ
  sWidth : ℤ
  sHeight : ℤ
  destX : ℤ
  destY : ℤ
  destWidth : ℤ
  destHeight : ℤ
  deriving DecidableEq

/-- Tile construction for grid cell (row, col) of a level of pixel
size levelW by levelH (part_000 lines 120-128): a TILE_SIZE by
TILE_SIZE canvas, a crop capped at the remaining extent, drawn at
offset (0,0). -/
def makeTile (levelW levelH row col : ℤ) : Tile :=
  let sx := col * (TILE_SIZE : ℤ)
  let sy := row * (TILE_SIZE : ℤ)
  let sWidth := min (TILE_SIZE : ℤ) (levelW - sx)
  let sHeight := min (TILE_SIZE : ℤ) (levelH - sy)
  { canvasWidth := (TILE_SIZE : ℤ)
    canvasHeight := (TILE_SIZE : ℤ)
    sx := sx
    sy := sy
    sWidth := sWidth
    sHeight := sHeight
    destX := 0
    destY := 0
    destWidth := sWidth
    destHeight := sHeight }

/-- Pixel provenance of a tile canvas: canvas pixel (px, py) shows
level pixel (sx + px, sy + py) when inside the copied crop and is
transparent (none) on the padding, matching the transparent
OffscreenCanvas background and the transparent embed of the python
script. -/
def tilePixelSource (t : Tile) (px py : ℤ) : Option (ℤ × ℤ) :=
  if 0 ≤ px ∧ px < t.sWidth ∧ 0 ≤ py ∧ py < t.sHeight then
    some (t.sx + px, t.sy + py)
  else none

/-- Observable events of one worker run: the progress postMessage at
the start of each level (its message interpolates the level and
numLevels - 1, part_000 line 107), the completion of a level tiling
loop, and the terminal done / error postMessage. -/
inductive WorkerEvent where
  | progress (level : ℤ) (denom : ℤ)
  | tiled (level : ℤ)
  | done
  | error (msg : String)
  deriving DecidableEq

/-- Terminal events of the worker channel. -/
def isTerminal : WorkerEvent → Bool
  | WorkerEvent.done => true
  | WorkerEvent.error _ => true
  | _ => false

/-- Events emitted by the level loop (part_000 lines 106-150),
running level from numLevels - 1 down to 0: each iteration first
posts the progress message, then finishes tiling the level. -/
def levelEvents (numLevels : ℤ) : ℕ → ℤ → List WorkerEvent
  | 0, _ => []
  | fuel + 1, level =>
    WorkerEvent.progress level (numLevels - 1) ::
      WorkerEvent.tiled level ::
        levelEvents numLevels fuel (level - 1)

/-- Full event trace of a successful worker run (part_000 lines
92-165): the level loop followed by the single done message. -/
def workerTrace (numLevels : ℤ) : List WorkerEvent :=
  levelEvents numLevels numLevels.toNat (numLevels - 1) ++
    [WorkerEvent.done]

/-- Event trace of a run aborted by an exception after k emitted
events: the try block stops where it threw and the catch posts the
single error message (part_000 lines 160-162). -/
def workerTraceAborted (numLevels : ℤ) (k : ℕ) (msg : String) :
    List WorkerEvent :=
  (levelEvents numLevels numLevels.toNat (numLevels - 1)).take k ++
    [WorkerEvent.error msg]

end Worker

namespace Zip

/-- Parsed JSON body of image_data.js: either field may be absent
(JS undefined). -/
structure ManifestJson where
  originalDimensions : Option Dims
  numLevels : Option ℤ
  deriving DecidableEq

/-- The image_data.js file inside the archive; parsed is none when
JSON.parse would throw on its contents. -/
structure ManifestFile where
  parsed : Option ManifestJson
  deriving DecidableEq

/-- One entry matched by content.file(/^tiles\x2f/) (part_000 lines
494-515): its slash-split path, its directory flag, and an abstract
blob identifier.  Numeric parsing of the level path segment is
abstracted away; it only affects the success path. -/
structure TileEntry where
  pathParts : List String
  isDir : Bool
  blobId : ℕ
  deriving DecidableEq

/-- A persisted tile-set archive as handleZipFile sees it. -/
structure ZipArchive where
  imageDataFile : Option ManifestFile
  tileEntries : List TileEntry
  deriving DecidableEq

/-- Observable side effects of handleZipFile: extracting one tile
blob, and publishing the final data via onTilesGenerated. -/
inductive ZipEvent where
  | extracted (blobId : ℕ)
  | published
  deriving DecidableEq

/-- Tile extraction of the success path: directories and entries
whose path does not have exactly three segments are skipped
(part_000 lines 496-515). -/
def extractTiles (entries : List TileEntry) : List ZipEvent :=
  (entries.filterMap fun e =>
    if e.isDir then none
    else if e.pathParts.length = 3 then some e.blobId
    else none).map ZipEvent.extracted

/-- handleZipFile (part_000 lines 469-531): the missing-manifest,
unparseable-manifest and missing-field checks all throw before any
tile is read; the JS guard is truthiness, so a numLevels of 0 is
also rejected.  The result is the emitted event list paired with the
outcome; onTilesGenerated fires exactly on the ok outcome. -/
def handleZipFile (z : ZipArchive) :
    List ZipEvent × Except String (Dims × ℤ) :=
  match z.imageDataFile with
  | none =>
    ([], Except.error "image_data.js not found in the ZIP file.")
  | some f =>
    match f.parsed with
    | none =>
      ([], Except.error "Unexpected end of JSON input")
    | some j =>
      match j.originalDimensions, j.numLevels with
      | some dims, some n =>
        if n = 0 then
          ([], Except.error "Invalid image_data.js format.")
        else
          (extractTiles z.tileEntries ++ [ZipEvent.published],
            Except.ok (dims, n))
      | _, _ =>
        ([], Except.error "Invalid image_data.js format.")

end Zip

namespace Explorer

/-- Documented bound on the zoom state:
minZoomIndex ≤ zoomIndex ≤ numLevels - 1. -/
def stateInv (numLevels : ℤ) (s : ViewportState) : Prop :=
  s.minZoomIndex ≤ s.zoomIndex ∧ s.zoomIndex ≤ numLevels - 1

/-- Condition under which a repeated pan in one direction has
no further effect: the moved axis cannot pan at all (world smaller
than view) or the first application already rests on the boundary in
the direction of motion. -/
def panAtBoundary (orig : Dims) (numLevels : ℤ) (vp : Dims)
    (s1 : ViewportState) : Direction → Prop
  | Direction.right =>
    (worldSizeAt orig numLevels s1.zoomIndex).width < vp.width ∨
      s1.pan.x = (worldSizeAt orig numLevels s1.zoomIndex).width - vp.width
  | Direction.left =>
    (worldSizeAt orig numLevels s1.zoomIndex).width < vp.width ∨
      s1.pan.x = 0
  | Direction.down =>
    (worldSizeAt orig numLevels s1.zoomIndex).height < vp.height ∨
      s1.pan.y = (worldSizeAt orig numLevels s1.zoomIndex).height - vp.height
  | Direction.up =>
    (worldSizeAt orig numLevels s1.zoomIndex).height < vp.height ∨
      s1.pan.y = 0

end Explorer

/-!
Helper lemmas shared by the claim theorems.
-/

/-- Characterisation of the exact ceiling base-2 logarithm by its
bracketing powers. -/
theorem clog2_eq {r : ℚ} {k : ℤ} (hr : 0 < r) (h1 : (2:ℚ) ^ (k - 1) < r)
    (h2 : r ≤ (2:ℚ) ^ k) : Int.clog 2 r = k := by
  have ha : Int.clog 2 r ≤ k := (Int.le_zpow_iff_clog_le (by norm_num) hr).1 h2
  have hb : k - 1 < Int.clog 2 r :=
    (Int.zpow_lt_iff_lt_clog (by norm_num) hr).1 h1
  omega

namespace Explorer

/-- One clamped axis value stays fixed under a second clamp. -/
theorem clampAxis_idem (p world view : ℚ) :
    clampAxis (clampAxis p world view) world view =
      clampAxis p world view := by
  unfold clampAxis
  by_cases h : world < view
  · rw [if_pos h, if_pos h]
  · rw [if_neg h, if_neg h]
    have h0 : (0:ℚ) ≤ world - view := sub_nonneg.2 (not_lt.1 h)
    have h1 : max 0 (min p (world - view)) ≤ world - view :=
      max_le h0 (min_le_right _ _)
    rw [min_eq_left h1, max_eq_right (le_max_left _ _)]

/-- clampPan is idempotent. -/
theorem clampPan_idem (p : Pan) (w v : Dims) :
    clampPan (clampPan p w v) w v = clampPan p w v := by
  unfold clampPan
  simp [clampAxis_idem]

/-- Clamping an axis never lowers it below 0 nor raises it above
world - view once the world is at least as large as the view. -/
theorem clampAxis_bounds {world view : ℚ} (p : ℚ) (h : view ≤ world) :
    0 ≤ clampAxis p world view ∧ clampAxis p world view ≤ world - view := by
  unfold clampAxis
  rw [if_neg (not_lt.2 h)]
  exact ⟨le_max_left _ _, max_le (sub_nonneg.2 h) (min_le_right _ _)⟩

/-- Pushing an already maximal axis further right leaves it at the
boundary. -/
theorem clampAxis_right_boundary {world view : ℚ} {d : ℚ}
    (h : ¬ world < view) (hd : 0 ≤ d) :
    clampAxis (world - view + d) world view = world - view := by
  unfold clampAxis
  rw [if_neg h]
  have h0 : (0:ℚ) ≤ world - view := sub_nonneg.2 (not_lt.1 h)
  rw [min_eq_right (by linarith), max_eq_right h0]

/-- Pushing an already minimal axis further left leaves it at 0. -/
theorem clampAxis_left_boundary {world view : ℚ} {d : ℚ}
    (h : ¬ world < view) (hd : 0 ≤ d) :
    clampAxis (0 - d) world view = 0 := by
  unfold clampAxis
  rw [if_neg h]
  have h0 : (0:ℚ) ≤ world - view := sub_nonneg.2 (not_lt.1 h)
  rw [min_eq_left (by linarith), max_eq_left (by linarith)]

/-- Undersized axes are always recentred, whatever the input. -/
theorem clampAxis_center {world view : ℚ} (p : ℚ) (h : world < view) :
    clampAxis p world view = (world - view) / 2 := if_pos h

/-- Unfolding of handleZoom when the target differs from the current
zoom index. -/
theorem handleZoom_of_ne {orig : Dims} {numLevels : ℤ} {vp : Dims}
    {s : ViewportState} {t : ℤ} (sp : Pan) (h : t ≠ s.zoomIndex) :
    handleZoom orig numLevels vp s t sp =
      { zoomIndex := max s.minZoomIndex (min t (numLevels - 1))
        minZoomIndex := s.minZoomIndex
        pan := clampPan
          { x := (s.pan.x + sp.x) *
              (scaleOf numLevels s.zoomIndex /
                scaleOf numLevels (max s.minZoomIndex (min t (numLevels - 1)))) - sp.x
            y := (s.pan.y + sp.y) *
              (scaleOf numLevels s.zoomIndex /
                scaleOf numLevels (max s.minZoomIndex (min t (numLevels - 1)))) - sp.y }
          (worldSizeAt orig numLevels (max s.minZoomIndex (min t (numLevels - 1))))
          vp } := by
  unfold handleZoom
  rw [if_neg h]

/-- Scale factors are never zero. -/
theorem scaleOf_ne_zero (numLevels i : ℤ) : scaleOf numLevels i ≠ 0 := by
  unfold scaleOf
  exact zpow_ne_zero _ two_ne_zero

/-- The getInitialState scan returns either its accumulator or an
index it visited. -/
theorem baseIndexGo_spec (orig : Dims) (numLevels : ℤ) (vp : Dims) :
    ∀ (fuel : ℕ) (i acc : ℤ),
      baseIndexGo orig numLevels vp fuel i acc = acc ∨
        (i ≤ baseIndexGo orig numLevels vp fuel i acc ∧
          baseIndexGo orig numLevels vp fuel i acc < i + fuel) := by
  intro fuel
  induction fuel with
  | zero => intro i acc; exact Or.inl rfl
  | succ n ih =>
    intro i acc
    unfold baseIndexGo
    by_cases h : (worldSizeAt orig numLevels i).width > vp.width ∨
        (worldSizeAt orig numLevels i).height > vp.height
    · rw [if_pos h]; exact Or.inl rfl
    · rw [if_neg h]
      rcases ih (i + 1) i with h1 | ⟨h1, h2⟩
      · rw [h1]; right; omega
      · right; omega

/-- The initial base index lies in [0, numLevels - 1] whenever there
is at least one level. -/
theorem getBaseIndex_bounds (orig : Dims) {numLevels : ℤ} (vp : Dims)
    (h : 1 ≤ numLevels) :
    0 ≤ getBaseIndex orig numLevels vp ∧
      getBaseIndex orig numLevels vp ≤ numLevels - 1 := by
  unfold getBaseIndex
  rcases baseIndexGo_spec orig numLevels vp numLevels.toNat 0 0 with
    h1 | ⟨h1, h2⟩
  · rw [h1]; omega
  · have : (numLevels.toNat : ℤ) = numLevels := Int.toNat_of_nonneg (by omega)
    omega

end Explorer

namespace Worker

/-- Iterated floor halving is floor division by the matching power of
two. -/
theorem halveIter_eq (k : ℕ) : ∀ w : ℕ, halveIter k w = w / 2 ^ k := by
  induction k with
  | zero => intro w; simp [halveIter]
  | succ n ih =>
    intro w
    rw [halveIter, ih (w / 2), Nat.div_div_eq_div_mul, pow_succ]
    ring_nf

/-- Exact rational division by a power of two agrees with the
floor-halved integer dimension exactly on multiples of that power. -/
theorem cast_div_pow_eq_iff (w : ℕ) (k : ℕ) :
    ((w / 2 ^ k : ℕ) : ℚ) = (w : ℚ) / (2 : ℚ) ^ k ↔ 2 ^ k ∣ w := by
  constructor
  · intro h
    have h2 : ((w / 2 ^ k : ℕ) : ℚ) * (2 : ℚ) ^ k = (w : ℚ) := by
      rw [h]
      field_simp
    have h3 : ((w / 2 ^ k * 2 ^ k : ℕ) : ℚ) = ((w : ℕ) : ℚ) := by
      push_cast
      exact h2
    have h4 : w / 2 ^ k * 2 ^ k = w := Nat.cast_injective h3
    exact ⟨w / 2 ^ k, by rw [mul_comm]; exact h4.symm⟩
  · intro h
    rw [Nat.cast_div h (by positivity)]
    push_cast
    rfl

/-- No event of the level loop is terminal. -/
theorem levelEvents_not_terminal (n : ℤ) :
    ∀ (fuel : ℕ) (lvl : ℤ) (e : WorkerEvent),
      e ∈ levelEvents n fuel lvl → isTerminal e = false := by
  intro fuel
  induction fuel with
  | zero => intro lvl e he; simp [levelEvents] at he
  | succ m ih =>
    intro lvl e he
    rw [levelEvents] at he
    rcases List.mem_cons.1 he with rfl | he
    · rfl
    · rcases List.mem_cons.1 he with rfl | he
      · rfl
      · exact ih (lvl - 1) e he

/-- Every progress event of the level loop names the fixed
denominator n - 1 and a level the loop actually visited. -/
theorem levelEvents_progress_mem (n : ℤ) :
    ∀ (fuel : ℕ) (lvl l d : ℤ),
      WorkerEvent.progress l d ∈ levelEvents n fuel lvl →
        d = n - 1 ∧ lvl - fuel < l ∧ l ≤ lvl := by
  intro fuel
  induction fuel with
  | zero => intro lvl l d h; simp [levelEvents] at h
  | succ m ih =>
    intro lvl l d h
    rw [levelEvents] at h
    rcases List.mem_cons.1 h with he | h
    · have h1 : l = lvl ∧ d = n - 1 := by
        cases he
        exact ⟨rfl, rfl⟩
      refine ⟨h1.2, ?_, ?_⟩ <;> omega
    · rcases List.mem_cons.1 h with he | h
      · cases he
      · obtain ⟨h1, h2, h3⟩ := ih (lvl - 1) l d h
        exact ⟨h1, by omega, by omega⟩

/-- Each visited level contributes a progress event immediately
followed by the completion of that level. -/
theorem levelEvents_contains (n : ℤ) :
    ∀ (fuel : ℕ) (lvl l : ℤ), lvl - fuel < l → l ≤ lvl →
      ∃ pre post, levelEvents n fuel lvl =
        pre ++ WorkerEvent.progress l (n - 1) ::
          WorkerEvent.tiled l :: post := by
  intro fuel
  induction fuel with
  | zero => intro lvl l h1 h2; omega
  | succ m ih =>
    intro lvl l h1 h2
    by_cases he : l = lvl
    · subst he
      exact ⟨[], levelEvents n m (l - 1), rfl⟩
    · obtain ⟨pre, post, hp⟩ := ih (lvl - 1) l (by omega) (by omega)
      refine ⟨WorkerEvent.progress lvl (n - 1) ::
        WorkerEvent.tiled lvl :: pre, post, ?_⟩
      rw [levelEvents, hp]
      rfl

end Worker

/-!
Claim theorems.
-/

/-- C1: every zoom transition via handleZoom with a target index
different from the current zoomIndex computes
newPan = (pan + screenPoint) * (oldScale / newScale) - screenPoint
with oldScale = 2 ^ (numLevels - 1 - zoomIndex) and
newScale = 2 ^ (numLevels - 1 - clampedTarget), and clamps it against
the new level world size; in particular for pan = (100, 50),
screenPoint = (300, 200), oldScale = 4, newScale = 2, the pre-clamp
pan fed to the clamp is (500, 300). -/
theorem c1_zoom_pan_formula :
    (∀ (orig : Dims) (numLevels : ℤ) (vp : Dims) (s : ViewportState)
      (t : ℤ) (sp : Pan), t ≠ s.zoomIndex →
      Explorer.handleZoom orig numLevels vp s t sp =
        { zoomIndex := max s.minZoomIndex (min t (numLevels - 1))
          minZoomIndex := s.minZoomIndex
          pan := Explorer.clampPan
            { x := (s.pan.x + sp.x) *
                ((2:ℚ) ^ (numLevels - 1 - s.zoomIndex) /
                  (2:ℚ) ^ (numLevels - 1 -
                    max s.minZoomIndex (min t (numLevels - 1)))) - sp.x
              y := (s.pan.y + sp.y) *
                ((2:ℚ) ^ (numLevels - 1 - s.zoomIndex) /
                  (2:ℚ) ^ (numLevels - 1 -
                    max s.minZoomIndex (min t (numLevels - 1)))) - sp.y }
            { width := orig.width / (2:ℚ) ^ (numLevels - 1 -
                max s.minZoomIndex (min t (numLevels - 1)))
              height := orig.height / (2:ℚ) ^ (numLevels - 1 -
                max s.minZoomIndex (min t (numLevels - 1))) }
            vp }) ∧
    Explorer.handleZoom ⟨1000, 1000⟩ 4 ⟨600, 400⟩
        ⟨1, 0, ⟨100, 50⟩⟩ 2 ⟨300, 200⟩ =
      { zoomIndex := 2
        minZoomIndex := 0
        pan := Explorer.clampPan ⟨500, 300⟩ ⟨500, 500⟩ ⟨600, 400⟩ } := by
  constructor
  · intro orig numLevels vp s t sp h
    rw [Explorer.handleZoom_of_ne sp h]
    rfl
  · rw [Explorer.handleZoom_of_ne _ (by decide)]
    have h1 : max (0:ℤ) (min 2 (4 - 1)) = 2 := by decide
    simp only [h1, Explorer.scaleOf, Explorer.worldSizeAt]
    norm_num

/-- Witness for C1: the general formula applied at a concrete zoom
step. -/
theorem c1_witness :
    Explorer.handleZoom ⟨800, 600⟩ 3 ⟨300, 300⟩ ⟨0, 0, ⟨0, 0⟩⟩ 1 ⟨10, 20⟩ =
      { zoomIndex := max (0:ℤ) (min 1 (3 - 1))
        minZoomIndex := 0
        pan := Explorer.clampPan
          { x := ((0:ℚ) + 10) * ((2:ℚ) ^ ((3:ℤ) - 1 - 0) /
              (2:ℚ) ^ ((3:ℤ) - 1 - max (0:ℤ) (min 1 (3 - 1)))) - 10
            y := ((0:ℚ) + 20) * ((2:ℚ) ^ ((3:ℤ) - 1 - 0) /
              (2:ℚ) ^ ((3:ℤ) - 1 - max (0:ℤ) (min 1 (3 - 1)))) - 20 }
          { width := (800:ℚ) / (2:ℚ) ^ ((3:ℤ) - 1 - max (0:ℤ) (min 1 (3 - 1)))
            height := (600:ℚ) / (2:ℚ) ^ ((3:ℤ) - 1 - max (0:ℤ) (min 1 (3 - 1))) }
          ⟨300, 300⟩ } :=
  c1_zoom_pan_formula.1 _ _ _ _ _ _ (by decide)

/-- C2: clampPan acts independently per axis, forcing the pan to
(worldSize - viewSize) / 2 on an axis where worldSize < viewSize and
otherwise clamping the input into [0, worldSize - viewSize], so the
result satisfies 0 ≤ pan ≤ worldSize - viewSize whenever
worldSize ≥ viewSize on that axis. -/
theorem c2_clampPan_spec :
    ∀ (p : Pan) (w v : Dims),
      ((Explorer.clampPan p w v).x =
        if w.width < v.width then (w.width - v.width) / 2
        else max 0 (min p.x (w.width - v.width))) ∧
      ((Explorer.clampPan p w v).y =
        if w.height < v.height then (w.height - v.height) / 2
        else max 0 (min p.y (w.height - v.height))) ∧
      (w.width < v.width →
        (Explorer.clampPan p w v).x = (w.width - v.width) / 2) ∧
      (w.height < v.height →
        (Explorer.clampPan p w v).y = (w.height - v.height) / 2) ∧
      (v.width ≤ w.width →
        0 ≤ (Explorer.clampPan p w v).x ∧
          (Explorer.clampPan p w v).x ≤ w.width - v.width) ∧
      (v.height ≤ w.height →
        0 ≤ (Explorer.clampPan p w v).y ∧
          (Explorer.clampPan p w v).y ≤ w.height - v.height) := by
  intro p w v
  refine ⟨rfl, rfl, ?_, ?_, ?_, ?_⟩
  · exact Explorer.clampAxis_center p.x
  · exact Explorer.clampAxis_center p.y
  · exact Explorer.clampAxis_bounds p.x
  · exact Explorer.clampAxis_bounds p.y

/-- Witness for C2: a pan clamped against a world that is wider but
shorter than the view, hitting both the clamping and the centering
branch. -/
theorem c2_witness :
    (0 ≤ (Explorer.clampPan ⟨50, 700⟩ ⟨500, 300⟩ ⟨200, 400⟩).x ∧
      (Explorer.clampPan ⟨50, 700⟩ ⟨500, 300⟩ ⟨200, 400⟩).x ≤
        (500:ℚ) - 200) ∧
    (Explorer.clampPan ⟨50, 700⟩ ⟨500, 300⟩ ⟨200, 400⟩).y =
      ((300:ℚ) - 400) / 2 :=
  ⟨(c2_clampPan_spec ⟨50, 700⟩ ⟨500, 300⟩ ⟨200, 400⟩).2.2.2.2.1
      (by norm_num),
    (c2_clampPan_spec ⟨50, 700⟩ ⟨500, 300⟩ ⟨200, 400⟩).2.2.2.1
      (by norm_num)⟩

/-- C3 counterexample: for a 64 by 64 source the builders compute
numLevels = ceil(log2(64 / 128)) + 1 = 0, so numLevels is not always
at least 1 when max(w, h) ≤ TILE_SIZE. -/
theorem c3_counterexample :
    Worker.numLevels 64 64 = 0 ∧ ¬ 1 ≤ Worker.numLevels 64 64 := by
  have e : ((max 64 64 : ℕ) : ℚ) / (TILE_SIZE : ℚ) = 1 / 2 := by
    norm_num [TILE_SIZE]
  have h : Worker.numLevels 64 64 = 0 := by
    unfold Worker.numLevels
    rw [e, clog2_eq (k := -1) (by norm_num) (by norm_num) (by norm_num)]
    decide
  exact ⟨h, by omega⟩

/-- C3 amended: the builders compute numLevels as
ceil(log2(max(w, h) / TILE_SIZE)) + 1 exactly, and this is at least 1
whenever max(w, h) ≥ 65, i.e. whenever max(w, h) > TILE_SIZE / 2; for
smaller sources the computed value drops to 0 or below. -/
theorem c3_num_levels :
    ∀ (w h : ℕ), 1 ≤ w → 1 ≤ h →
      Worker.numLevels w h =
        Int.clog 2 (((max w h : ℕ) : ℚ) / 128) + 1 ∧
      (65 ≤ max w h → 1 ≤ Worker.numLevels w h) := by
  have ht : (TILE_SIZE : ℚ) = 128 := by norm_num [TILE_SIZE]
  intro w h hw hh
  constructor
  · unfold Worker.numLevels
    rw [ht]
  · intro h65
    have hmq : (65 : ℚ) ≤ ((max w h : ℕ) : ℚ) := by exact_mod_cast h65
    have mono : Int.clog 2 ((65 : ℚ) / 128) ≤
        Int.clog 2 (((max w h : ℕ) : ℚ) / (TILE_SIZE : ℚ)) := by
      apply Int.clog_mono_right (by norm_num)
      rw [ht]
      gcongr
    have h0 : Int.clog 2 ((65 : ℚ) / 128) = 0 :=
      clog2_eq (by norm_num) (by norm_num) (by norm_num)
    rw [h0] at mono
    unfold Worker.numLevels
    omega

/-- Witness for C3: the 1024 by 1024 scenario of the spec, which has
numLevels well defined and at least 1. -/
theorem c3_witness :
    Worker.numLevels 1024 1024 =
      Int.clog 2 (((max 1024 1024 : ℕ) : ℚ) / 128) + 1 ∧
    1 ≤ Worker.numLevels 1024 1024 :=
  ⟨(c3_num_levels 1024 1024 (by decide) (by decide)).1,
    (c3_num_levels 1024 1024 (by decide) (by decide)).2 (by decide)⟩

/-- C4 counterexample: for a 1025 by 1025 source (numLevels = 5) the
renderer uses 1025 / 2 = 512.5 as the width of level 3, while the
pyramid level produced by floor halving is 512 pixels wide, so the
renderer does not use the floor-halved pyramid dimensions. -/
theorem c4_counterexample :
    Worker.numLevels 1025 1025 = 5 ∧
    Worker.levelSize 1025 5 3 = 512 ∧
    (Explorer.worldSizeAt ⟨1025, 1025⟩ 5 3).width ≠
      ((Worker.levelSize 1025 5 3 : ℕ) : ℚ) := by
  refine ⟨?_, by decide, ?_⟩
  · have e : ((max 1025 1025 : ℕ) : ℚ) / (TILE_SIZE : ℚ) = 1025 / 128 := by
      norm_num [TILE_SIZE]
    unfold Worker.numLevels
    rw [e, clog2_eq (k := 4) (by norm_num) (by norm_num) (by norm_num)]
    decide
  · have h : Worker.levelSize 1025 5 3 = 512 := by decide
    rw [h]
    simp [Explorer.worldSizeAt, Explorer.scaleOf]
    norm_num

/-- C4 amended: the renderer computes the world size of level i by
dividing the original dimensions directly and exactly by
2 ^ (numLevels - 1 - i); this agrees with the floor-halved pyramid
dimension on an axis exactly when 2 ^ (numLevels - 1 - i) divides the
original dimension on that axis. -/
theorem c4_renderer_level_dims :
    ∀ (w h : ℕ) (n i : ℤ), i ≤ n - 1 →
      ((Explorer.worldSizeAt ⟨(w : ℚ), (h : ℚ)⟩ n i).width =
          ((Worker.levelSize w n i : ℕ) : ℚ) ↔
        2 ^ (n - 1 - i).toNat ∣ w) ∧
      ((Explorer.worldSizeAt ⟨(w : ℚ), (h : ℚ)⟩ n i).height =
          ((Worker.levelSize h n i : ℕ) : ℚ) ↔
        2 ^ (n - 1 - i).toNat ∣ h) := by
  intro w h n i hi
  have hz : (2 : ℚ) ^ (n - 1 - i) = (2 : ℚ) ^ ((n - 1 - i).toNat) := by
    rw [← zpow_natCast]
    congr 1
    omega
  have key : ∀ u : ℕ,
      ((u : ℚ) / (2 : ℚ) ^ (n - 1 - i) =
          ((Worker.levelSize u n i : ℕ) : ℚ)) ↔
        2 ^ (n - 1 - i).toNat ∣ u := by
    intro u
    unfold Worker.levelSize
    rw [Worker.halveIter_eq, hz]
    constructor
    · intro he
      exact (Worker.cast_div_pow_eq_iff u _).1 he.symm
    · intro hd
      exact ((Worker.cast_div_pow_eq_iff u _).2 hd).symm
  constructor
  · simpa [Explorer.worldSizeAt, Explorer.scaleOf] using key w
  · simpa [Explorer.worldSizeAt, Explorer.scaleOf] using key h

/-- Witness for C4: a power-of-two source, where the two dimension
computations do coincide. -/
theorem c4_witness :
    ((Explorer.worldSizeAt ⟨((1024 : ℕ) : ℚ), ((1024 : ℕ) : ℚ)⟩ 4 1).width =
        ((Worker.levelSize 1024 4 1 : ℕ) : ℚ) ↔
      2 ^ ((4 : ℤ) - 1 - 1).toNat ∣ 1024) :=
  (c4_renderer_level_dims 1024 1024 4 1 (by decide)).1

/-- Grid indices below the ceiling-divided tile count leave a
positive remaining extent. -/
theorem mul_TILE_lt_of_lt_ceil {L c : ℤ}
    (h : c < ⌈(L : ℚ) / (TILE_SIZE : ℚ)⌉) : c * (TILE_SIZE : ℤ) < L := by
  have ht : (TILE_SIZE : ℚ) = 128 := by norm_num [TILE_SIZE]
  rw [ht] at h
  have h1 : ((c : ℚ) + 1) ≤ (⌈(L : ℚ) / 128⌉ : ℚ) := by exact_mod_cast h
  have h2 : (⌈(L : ℚ) / 128⌉ : ℚ) < (L : ℚ) / 128 + 1 :=
    Int.ceil_lt_add_one _
  have h3 : (c : ℚ) < (L : ℚ) / 128 := by linarith
  have h4 : (c : ℚ) * 128 < (L : ℚ) := (lt_div_iff₀ (by norm_num)).1 h3
  have h5 : c * 128 < L := by exact_mod_cast h4
  have ht2 : (TILE_SIZE : ℤ) = 128 := by norm_num [TILE_SIZE]
  rw [ht2]
  exact h5

/-- C5: every tile of a level grid with cols = ceil(levelW/TILE_SIZE)
and rows = ceil(levelH/TILE_SIZE) is emitted on a TILE_SIZE by
TILE_SIZE canvas; an edge tile is cropped to its true remaining
extent min(TILE_SIZE, level - index * TILE_SIZE), which is between 1
and TILE_SIZE, placed at offset (0, 0), with the canvas transparent
beyond the crop. -/
theorem c5_tile_dims :
    ∀ (levelW levelH row col : ℤ), 0 ≤ row → 0 ≤ col →
      col < Worker.colsOf levelW → row < Worker.rowsOf levelH →
      (Worker.makeTile levelW levelH row col).canvasWidth = 128 ∧
      (Worker.makeTile levelW levelH row col).canvasHeight = 128 ∧
      (Worker.makeTile levelW levelH row col).sWidth =
        min 128 (levelW - col * 128) ∧
      (Worker.makeTile levelW levelH row col).sHeight =
        min 128 (levelH - row * 128) ∧
      (Worker.makeTile levelW levelH row col).destX = 0 ∧
      (Worker.makeTile levelW levelH row col).destY = 0 ∧
      1 ≤ (Worker.makeTile levelW levelH row col).sWidth ∧
      (Worker.makeTile levelW levelH row col).sWidth ≤ 128 ∧
      1 ≤ (Worker.makeTile levelW levelH row col).sHeight ∧
      (Worker.makeTile levelW levelH row col).sHeight ≤ 128 ∧
      (∀ px py : ℤ, (Worker.makeTile levelW levelH row col).sWidth ≤ px →
        Worker.tilePixelSource (Worker.makeTile levelW levelH row col)
          px py = none) := by
  intro levelW levelH row col hr hc hcols hrows
  have hw : col * (TILE_SIZE : ℤ) < levelW :=
    mul_TILE_lt_of_lt_ceil hcols
  have hh : row * (TILE_SIZE : ℤ) < levelH :=
    mul_TILE_lt_of_lt_ceil hrows
  have ht : (TILE_SIZE : ℤ) = 128 := by norm_num [TILE_SIZE]
  rw [ht] at hw hh
  refine ⟨?_, ?_, ?_, ?_, rfl, rfl, ?_, ?_, ?_, ?_, ?_⟩
  · simp [Worker.makeTile, ht]
  · simp [Worker.makeTile, ht]
  · simp [Worker.makeTile, ht]
  · simp [Worker.makeTile, ht]
  · simp only [Worker.makeTile, ht]
    omega
  · simp only [Worker.makeTile, ht]
    omega
  · simp only [Worker.makeTile, ht]
    omega
  · simp only [Worker.makeTile, ht]
    omega
  · intro px py hpx
    unfold Worker.tilePixelSource
    rw [if_neg]
    intro hcon
    omega

/-- Witness for C5: the bottom-right edge tile of a 200 by 100
level. -/
theorem c5_witness :
    (Worker.makeTile 200 100 0 1).canvasWidth = 128 ∧
    (Worker.makeTile 200 100 0 1).canvasHeight = 128 ∧
    (Worker.makeTile 200 100 0 1).sWidth = min 128 (200 - 1 * 128) ∧
    (Worker.makeTile 200 100 0 1).sHeight = min 128 (100 - 0 * 128) ∧
    (Worker.makeTile 200 100 0 1).destX = 0 ∧
    (Worker.makeTile 200 100 0 1).destY = 0 ∧
    1 ≤ (Worker.makeTile 200 100 0 1).sWidth ∧
    (Worker.makeTile 200 100 0 1).sWidth ≤ 128 ∧
    1 ≤ (Worker.makeTile 200 100 0 1).sHeight ∧
    (Worker.makeTile 200 100 0 1).sHeight ≤ 128 ∧
    (∀ px py : ℤ, (Worker.makeTile 200 100 0 1).sWidth ≤ px →
      Worker.tilePixelSource (Worker.makeTile 200 100 0 1) px py = none) :=
  c5_tile_dims 200 100 0 1 (by decide) (by decide)
    (by
      have h : Worker.colsOf 200 = 2 := by
        unfold Worker.colsOf
        norm_num [TILE_SIZE]
        rw [Int.ceil_eq_iff]
        norm_num
      omega)
    (by
      have h : Worker.rowsOf 100 = 1 := by
        unfold Worker.rowsOf
        norm_num [TILE_SIZE]
        rw [Int.ceil_eq_iff]
        norm_num
      omega)

/-- C6 counterexample: with numLevels = 2 the worker posts its
progress message at the start of each level iteration, before that
level is tiled, and the message names numLevels - 1 = 1, never the
claimed total of 2. -/
theorem c6_counterexample :
    Worker.workerTrace 2 =
      [Worker.WorkerEvent.progress 1 1, Worker.WorkerEvent.tiled 1,
       Worker.WorkerEvent.progress 0 1, Worker.WorkerEvent.tiled 0,
       Worker.WorkerEvent.done] ∧
    Worker.WorkerEvent.progress 1 2 ∉ Worker.workerTrace 2 := by
  decide

/-- C6 amended: during a build the worker signals progress at the
start of each level (the message naming that level out of
numLevels - 1, not numLevels), every level in range gets such a
signal immediately followed by its tiling, and the event stream ends
with exactly one terminal event, done on success and a single error
message on an aborted run. -/
theorem c6_progress_events :
    ∀ n : ℤ, 1 ≤ n →
      (∀ l d, Worker.WorkerEvent.progress l d ∈ Worker.workerTrace n →
        d = n - 1 ∧ 0 ≤ l ∧ l ≤ n - 1) ∧
      (∀ l, 0 ≤ l → l ≤ n - 1 →
        ∃ pre post, Worker.workerTrace n =
          pre ++ Worker.WorkerEvent.progress l (n - 1) ::
            Worker.WorkerEvent.tiled l :: post) ∧
      (Worker.workerTrace n).filter Worker.isTerminal =
        [Worker.WorkerEvent.done] ∧
      (∀ (k : ℕ) (msg : String),
        (Worker.workerTraceAborted n k msg).filter Worker.isTerminal =
          [Worker.WorkerEvent.error msg]) := by
  intro n hn
  have htn : ((n.toNat : ℤ)) = n := Int.toNat_of_nonneg (by omega)
  refine ⟨?_, ?_, ?_, ?_⟩
  · intro l d hmem
    rcases List.mem_append.1 hmem with hmem | hmem
    · obtain ⟨h1, h2, h3⟩ :=
        Worker.levelEvents_progress_mem n n.toNat (n - 1) l d hmem
      exact ⟨h1, by omega, by omega⟩
    · simp at hmem
  · intro l h0 h1
    obtain ⟨pre, post, hp⟩ :=
      Worker.levelEvents_contains n n.toNat (n - 1) l (by omega) (by omega)
    refine ⟨pre, post ++ [Worker.WorkerEvent.done], ?_⟩
    rw [Worker.workerTrace, hp]
    simp
  · rw [Worker.workerTrace, List.filter_append]
    have he : (Worker.levelEvents n n.toNat (n - 1)).filter
        Worker.isTerminal = [] := by
      rw [List.filter_eq_nil_iff]
      intro a ha
      simp [Worker.levelEvents_not_terminal n n.toNat (n - 1) a ha]
    rw [he]
    rfl
  · intro k msg
    rw [Worker.workerTraceAborted, List.filter_append]
    have he : ((Worker.levelEvents n n.toNat (n - 1)).take k).filter
        Worker.isTerminal = [] := by
      rw [List.filter_eq_nil_iff]
      intro a ha
      simp [Worker.levelEvents_not_terminal n n.toNat (n - 1) a
        (List.take_subset k _ ha)]
    rw [he]
    rfl

/-- Witness for C6: the terminal-event components at a concrete
three-level build, on the success and on an aborted path. -/
theorem c6_witness :
    (Worker.workerTrace 3).filter Worker.isTerminal =
      [Worker.WorkerEvent.done] ∧
    (Worker.workerTraceAborted 3 1 "boom").filter Worker.isTerminal =
      [Worker.WorkerEvent.error "boom"] :=
  ⟨(c6_progress_events 3 (by decide)).2.2.1,
    (c6_progress_events 3 (by decide)).2.2.2 1 "boom"⟩

/-- C7: initialization establishes and handleZoom and handlePan
preserve the invariant minZoomIndex ≤ zoomIndex ≤ numLevels - 1;
handleZoom commits exactly the target clamped into
[minZoomIndex, numLevels - 1]. -/
theorem c7_zoom_index_invariant :
    (∀ (orig : Dims) (n : ℤ) (vp : Dims) (s : ViewportState),
      1 ≤ n → Explorer.getInitialState orig n vp = some s →
      Explorer.stateInv n s) ∧
    (∀ (orig : Dims) (n : ℤ) (vp : Dims) (s : ViewportState)
      (t : ℤ) (sp : Pan), Explorer.stateInv n s →
      Explorer.stateInv n (Explorer.handleZoom orig n vp s t sp)) ∧
    (∀ (orig : Dims) (n : ℤ) (vp : Dims) (s : ViewportState)
      (d : Direction), Explorer.stateInv n s →
      Explorer.stateInv n (Explorer.handlePan orig n vp s d)) ∧
    (∀ (orig : Dims) (n : ℤ) (vp : Dims) (s : ViewportState)
      (t : ℤ) (sp : Pan), t ≠ s.zoomIndex →
      (Explorer.handleZoom orig n vp s t sp).zoomIndex =
        max s.minZoomIndex (min t (n - 1))) := by
  refine ⟨?_, ?_, ?_, ?_⟩
  · intro orig n vp s hn hs
    unfold Explorer.getInitialState at hs
    by_cases hvp : vp.width = 0
    · rw [if_pos hvp] at hs
      cases hs
    · rw [if_neg hvp] at hs
      obtain ⟨h0, h1⟩ := Explorer.getBaseIndex_bounds orig vp hn
      cases hs
      exact ⟨le_refl _, h1⟩
  · intro orig n vp s t sp hinv
    obtain ⟨h1, h2⟩ := hinv
    by_cases h : t = s.zoomIndex
    · unfold Explorer.handleZoom
      rw [if_pos h]
      exact ⟨h1, h2⟩
    · rw [Explorer.handleZoom_of_ne sp h]
      refine ⟨le_max_left _ _, max_le (by omega) (min_le_right _ _)⟩
  · intro orig n vp s d hinv
    exact hinv
  · intro orig n vp s t sp h
    rw [Explorer.handleZoom_of_ne sp h]

/-- Witness for C7: a concrete initialization and a concrete zoom
step, both satisfying the invariant. -/
theorem c7_witness :
    Explorer.stateInv 2 ⟨0, 0, ⟨0, 0⟩⟩ ∧
    Explorer.stateInv 2
      (Explorer.handleZoom ⟨256, 256⟩ 2 ⟨100, 100⟩ ⟨0, 0, ⟨0, 0⟩⟩ 5 ⟨10, 10⟩) ∧
    Explorer.stateInv 2
      (Explorer.handlePan ⟨256, 256⟩ 2 ⟨100, 100⟩ ⟨0, 0, ⟨0, 0⟩⟩
        Direction.right) :=
  ⟨c7_zoom_index_invariant.1 ⟨256, 256⟩ 2 ⟨100, 100⟩ ⟨0, 0, ⟨0, 0⟩⟩
      (by decide)
      (by
        simp [Explorer.getInitialState, Explorer.getBaseIndex,
          Explorer.baseIndexGo, Explorer.worldSizeAt, Explorer.scaleOf,
          Explorer.clampPan, Explorer.clampAxis]
        norm_num),
    c7_zoom_index_invariant.2.1 ⟨256, 256⟩ 2 ⟨100, 100⟩ ⟨0, 0, ⟨0, 0⟩⟩ 5
      ⟨10, 10⟩ ⟨by decide, by decide⟩,
    c7_zoom_index_invariant.2.2.1 ⟨256, 256⟩ 2 ⟨100, 100⟩ ⟨0, 0, ⟨0, 0⟩⟩
      Direction.right ⟨by decide, by decide⟩⟩

/-- Unfolding of handleZoom when the target equals the current zoom
index. -/
theorem handleZoom_self {orig : Dims} {numLevels : ℤ} {vp : Dims}
    {s : ViewportState} {t : ℤ} (sp : Pan) (h : t = s.zoomIndex) :
    Explorer.handleZoom orig numLevels vp s t sp = s := by
  unfold Explorer.handleZoom
  rw [if_pos h]

/-- Unfolding of handlePan in the right direction. -/
theorem handlePan_right (orig : Dims) (numLevels : ℤ) (vp : Dims)
    (s : ViewportState) :
    Explorer.handlePan orig numLevels vp s Direction.right =
      { s with pan := Explorer.clampPan
                  ⟨s.pan.x + vp.width * 0.25, s.pan.y⟩
                  (Explorer.worldSizeAt orig numLevels s.zoomIndex) vp } := rfl

/-- Unfolding of handlePan in the left direction. -/
theorem handlePan_left (orig : Dims) (numLevels : ℤ) (vp : Dims)
    (s : ViewportState) :
    Explorer.handlePan orig numLevels vp s Direction.left =
      { s with pan := Explorer.clampPan
                  ⟨s.pan.x - vp.width * 0.25, s.pan.y⟩
                  (Explorer.worldSizeAt orig numLevels s.zoomIndex) vp } := rfl

/-- Unfolding of handlePan in the up direction. -/
theorem handlePan_up (orig : Dims) (numLevels : ℤ) (vp : Dims)
    (s : ViewportState) :
    Explorer.handlePan orig numLevels vp s Direction.up =
      { s with pan := Explorer.clampPan
                  ⟨s.pan.x, s.pan.y - vp.height * 0.25⟩
                  (Explorer.worldSizeAt orig numLevels s.zoomIndex) vp } := rfl

/-- Unfolding of handlePan in the down direction. -/
theorem handlePan_down (orig : Dims) (numLevels : ℤ) (vp : Dims)
    (s : ViewportState) :
    Explorer.handlePan orig numLevels vp s Direction.down =
      { s with pan := Explorer.clampPan
                  ⟨s.pan.x, s.pan.y + vp.height * 0.25⟩
                  (Explorer.worldSizeAt orig numLevels s.zoomIndex) vp } := rfl

/-- C8 counterexample: from the already-clamped state pan = (0, 0) on
a 512-wide world behind a 128-wide viewport, a second pan right moves
the pan again (from 32 to 64), so repeating a pan is not a no-op on
the second application. -/
theorem c8_counterexample :
    Explorer.clampPan ⟨0, 0⟩ (Explorer.worldSizeAt ⟨512, 512⟩ 1 0)
      ⟨128, 128⟩ = ⟨0, 0⟩ ∧
    Explorer.handlePan ⟨512, 512⟩ 1 ⟨128, 128⟩ ⟨0, 0, ⟨0, 0⟩⟩
      Direction.right = ⟨0, 0, ⟨32, 0⟩⟩ ∧
    Explorer.handlePan ⟨512, 512⟩ 1 ⟨128, 128⟩
        (Explorer.handlePan ⟨512, 512⟩ 1 ⟨128, 128⟩ ⟨0, 0, ⟨0, 0⟩⟩
          Direction.right) Direction.right ≠
      Explorer.handlePan ⟨512, 512⟩ 1 ⟨128, 128⟩ ⟨0, 0, ⟨0, 0⟩⟩
        Direction.right := by
  have h0 : Explorer.clampPan ⟨0, 0⟩ (Explorer.worldSizeAt ⟨512, 512⟩ 1 0)
      ⟨128, 128⟩ = ⟨0, 0⟩ := by
    simp [Explorer.clampPan, Explorer.clampAxis, Explorer.worldSizeAt,
      Explorer.scaleOf]
    norm_num
  have h1 : Explorer.handlePan ⟨512, 512⟩ 1 ⟨128, 128⟩ ⟨0, 0, ⟨0, 0⟩⟩
      Direction.right = ⟨0, 0, ⟨32, 0⟩⟩ := by
    simp [Explorer.handlePan, Explorer.clampPan, Explorer.clampAxis,
      Explorer.worldSizeAt, Explorer.scaleOf]
    norm_num
  have h2 : Explorer.handlePan ⟨512, 512⟩ 1 ⟨128, 128⟩ ⟨0, 0, ⟨32, 0⟩⟩
      Direction.right = ⟨0, 0, ⟨64, 0⟩⟩ := by
    simp [Explorer.handlePan, Explorer.clampPan, Explorer.clampAxis,
      Explorer.worldSizeAt, Explorer.scaleOf]
    norm_num
  refine ⟨h0, h1, ?_⟩
  rw [h1, h2]
  simp

/-- C8 amended: repeating handleZoom with the same arguments is a
no-op on the second application for every state; repeating handlePan
is a no-op on the second application when the moved axis cannot pan
(world smaller than view) or the first application already reached
the clamp boundary in the direction of motion — in general a second
pan moves the viewport further. -/
theorem c8_idempotence :
    (∀ (orig : Dims) (n : ℤ) (vp : Dims) (s : ViewportState)
      (t : ℤ) (sp : Pan),
      Explorer.handleZoom orig n vp
        (Explorer.handleZoom orig n vp s t sp) t sp =
        Explorer.handleZoom orig n vp s t sp) ∧
    (∀ (orig : Dims) (n : ℤ) (vp : Dims) (s : ViewportState)
      (d : Direction), 0 ≤ vp.width → 0 ≤ vp.height →
      Explorer.panAtBoundary orig n vp
        (Explorer.handlePan orig n vp s d) d →
      Explorer.handlePan orig n vp
        (Explorer.handlePan orig n vp s d) d =
        Explorer.handlePan orig n vp s d) := by
  constructor
  · intro orig n vp s t sp
    by_cases h1 : t = s.zoomIndex
    · rw [handleZoom_self sp h1, handleZoom_self sp h1]
    · rw [Explorer.handleZoom_of_ne sp h1]
      by_cases h2 : t = max s.minZoomIndex (min t (n - 1))
      · exact handleZoom_self sp h2
      · rw [Explorer.handleZoom_of_ne sp h2]
        have hr : Explorer.scaleOf n (max s.minZoomIndex (min t (n - 1))) /
            Explorer.scaleOf n (max s.minZoomIndex (min t (n - 1))) = 1 :=
          div_self (Explorer.scaleOf_ne_zero n _)
        simp only [hr, mul_one, add_sub_cancel_right]
        rw [Explorer.clampPan_idem]
  · intro orig n vp s d hw hh hb
    have hd4 : (0:ℚ) ≤ vp.width * 0.25 := by
      apply mul_nonneg hw
      norm_num
    have hd4h : (0:ℚ) ≤ vp.height * 0.25 := by
      apply mul_nonneg hh
      norm_num
    cases d
    case up =>
      rw [handlePan_up] at hb ⊢
      rw [handlePan_up]
      unfold Explorer.panAtBoundary at hb
      simp only [Explorer.clampPan] at hb ⊢
      have hx : Explorer.clampAxis
          (Explorer.clampAxis s.pan.x
            (Explorer.worldSizeAt orig n s.zoomIndex).width vp.width)
          (Explorer.worldSizeAt orig n s.zoomIndex).width vp.width =
          Explorer.clampAxis s.pan.x
            (Explorer.worldSizeAt orig n s.zoomIndex).width vp.width :=
        Explorer.clampAxis_idem _ _ _
      have hy : Explorer.clampAxis
          (Explorer.clampAxis (s.pan.y - vp.height * 0.25)
            (Explorer.worldSizeAt orig n s.zoomIndex).height vp.height -
              vp.height * 0.25)
          (Explorer.worldSizeAt orig n s.zoomIndex).height vp.height =
          Explorer.clampAxis (s.pan.y - vp.height * 0.25)
            (Explorer.worldSizeAt orig n s.zoomIndex).height vp.height := by
        by_cases hc : (Explorer.worldSizeAt orig n s.zoomIndex).height <
            vp.height
        · rw [Explorer.clampAxis_center _ hc, Explorer.clampAxis_center _ hc]
        · rcases hb with hb | hb
          · exact absurd hb hc
          · rw [hb]
            exact Explorer.clampAxis_left_boundary hc hd4h
      rw [hx, hy]
    case down =>
      rw [handlePan_down] at hb ⊢
      rw [handlePan_down]
      unfold Explorer.panAtBoundary at hb
      simp only [Explorer.clampPan] at hb ⊢
      have hx : Explorer.clampAxis
          (Explorer.clampAxis s.pan.x
            (Explorer.worldSizeAt orig n s.zoomIndex).width vp.width)
          (Explorer.worldSizeAt orig n s.zoomIndex).width vp.width =
          Explorer.clampAxis s.pan.x
            (Explorer.worldSizeAt orig n s.zoomIndex).width vp.width :=
        Explorer.clampAxis_idem _ _ _
      have hy : Explorer.clampAxis
          (Explorer.clampAxis (s.pan.y + vp.height * 0.25)
            (Explorer.worldSizeAt orig n s.zoomIndex).height vp.height +
              vp.height * 0.25)
          (Explorer.worldSizeAt orig n s.zoomIndex).height vp.height =
          Explorer.clampAxis (s.pan.y + vp.height * 0.25)
            (Explorer.worldSizeAt orig n s.zoomIndex).height vp.height := by
        by_cases hc : (Explorer.worldSizeAt orig n s.zoomIndex).height <
            vp.height
        · rw [Explorer.clampAxis_center _ hc, Explorer.clampAxis_center _ hc]
        · rcases hb with hb | hb
          · exact absurd hb hc
          · rw [hb]
            exact Explorer.clampAxis_right_boundary hc hd4h
      rw [hx, hy]
    case left =>
      rw [handlePan_left] at hb ⊢
      rw [handlePan_left]
      unfold Explorer.panAtBoundary at hb
      simp only [Explorer.clampPan] at hb ⊢
      have hy : Explorer.clampAxis
          (Explorer.clampAxis s.pan.y
            (Explorer.worldSizeAt orig n s.zoomIndex).height vp.height)
          (Explorer.worldSizeAt orig n s.zoomIndex).height vp.height =
          Explorer.clampAxis s.pan.y
            (Explorer.worldSizeAt orig n s.zoomIndex).height vp.height :=
        Explorer.clampAxis_idem _ _ _
      have hx : Explorer.clampAxis
          (Explorer.clampAxis (s.pan.x - vp.width * 0.25)
            (Explorer.worldSizeAt orig n s.zoomIndex).width vp.width -
              vp.width * 0.25)
          (Explorer.worldSizeAt orig n s.zoomIndex).width vp.width =
          Explorer.clampAxis (s.pan.x - vp.width * 0.25)
            (Explorer.worldSizeAt orig n s.zoomIndex).width vp.width := by
        by_cases hc : (Explorer.worldSizeAt orig n s.zoomIndex).width <
            vp.width
        · rw [Explorer.clampAxis_center _ hc, Explorer.clampAxis_center _ hc]
        · rcases hb with hb | hb
          · exact absurd hb hc
          · rw [hb]
            exact Explorer.clampAxis_left_boundary hc hd4
      rw [hx, hy]
    case right =>
      rw [handlePan_right] at hb ⊢
      rw [handlePan_right]
      unfold Explorer.panAtBoundary at hb
      simp only [Explorer.clampPan] at hb ⊢
      have hy : Explorer.clampAxis
          (Explorer.clampAxis s.pan.y
            (Explorer.worldSizeAt orig n s.zoomIndex).height vp.height)
          (Explorer.worldSizeAt orig n s.zoomIndex).height vp.height =
          Explorer.clampAxis s.pan.y
            (Explorer.worldSizeAt orig n s.zoomIndex).height vp.height :=
        Explorer.clampAxis_idem _ _ _
      have hx : Explorer.clampAxis
          (Explorer.clampAxis (s.pan.x + vp.width * 0.25)
            (Explorer.worldSizeAt orig n s.zoomIndex).width vp.width +
              vp.width * 0.25)
          (Explorer.worldSizeAt orig n s.zoomIndex).width vp.width =
          Explorer.clampAxis (s.pan.x + vp.width * 0.25)
            (Explorer.worldSizeAt orig n s.zoomIndex).width vp.width := by
        by_cases hc : (Explorer.worldSizeAt orig n s.zoomIndex).width <
            vp.width
        · rw [Explorer.clampAxis_center _ hc, Explorer.clampAxis_center _ hc]
        · rcases hb with hb | hb
          · exact absurd hb hc
          · rw [hb]
            exact Explorer.clampAxis_right_boundary hc hd4
      rw [hx, hy]

/-- Witness for C8: a repeated concrete zoom step is a no-op, and a
repeated pan right that hits the boundary on the first application is
a no-op on the second. -/
theorem c8_witness :
    Explorer.handleZoom ⟨512, 512⟩ 1 ⟨128, 128⟩
        (Explorer.handleZoom ⟨512, 512⟩ 1 ⟨128, 128⟩ ⟨0, 0, ⟨0, 0⟩⟩ 3
          ⟨5, 5⟩) 3 ⟨5, 5⟩ =
      Explorer.handleZoom ⟨512, 512⟩ 1 ⟨128, 128⟩ ⟨0, 0, ⟨0, 0⟩⟩ 3 ⟨5, 5⟩ ∧
    Explorer.handlePan ⟨256, 256⟩ 1 ⟨128, 128⟩
        (Explorer.handlePan ⟨256, 256⟩ 1 ⟨128, 128⟩ ⟨0, 0, ⟨100, 0⟩⟩
          Direction.right) Direction.right =
      Explorer.handlePan ⟨256, 256⟩ 1 ⟨128, 128⟩ ⟨0, 0, ⟨100, 0⟩⟩
        Direction.right :=
  ⟨c8_idempotence.1 ⟨512, 512⟩ 1 ⟨128, 128⟩ ⟨0, 0, ⟨0, 0⟩⟩ 3 ⟨5, 5⟩,
    c8_idempotence.2 ⟨256, 256⟩ 1 ⟨128, 128⟩ ⟨0, 0, ⟨100, 0⟩⟩
      Direction.right (by norm_num) (by norm_num)
      (by
        have h1 : Explorer.handlePan ⟨256, 256⟩ 1 ⟨128, 128⟩
            ⟨0, 0, ⟨100, 0⟩⟩ Direction.right = ⟨0, 0, ⟨128, 0⟩⟩ := by
          simp [Explorer.handlePan, Explorer.clampPan, Explorer.clampAxis,
            Explorer.worldSizeAt, Explorer.scaleOf]
          norm_num
        rw [h1]
        unfold Explorer.panAtBoundary
        right
        simp [Explorer.worldSizeAt, Explorer.scaleOf]
        norm_num)⟩

/-- C9: loading a persisted archive whose manifest is missing,
unparseable, or lacks originalDimensions or numLevels fails with a
descriptive (nonempty) error before any tile is extracted or
published; the tiles-generated callback (the published event) never
fires on the failure path. -/
theorem c9_zip_manifest_guard :
    ∀ z : Zip.ZipArchive,
      (z.imageDataFile = none ∨
        (∃ f, z.imageDataFile = some f ∧ f.parsed = none) ∨
        (∃ f j, z.imageDataFile = some f ∧ f.parsed = some j ∧
          (j.originalDimensions = none ∨ j.numLevels = none))) →
      (Zip.handleZipFile z).1 = [] ∧
      Zip.ZipEvent.published ∉ (Zip.handleZipFile z).1 ∧
      ∃ msg, (Zip.handleZipFile z).2 = Except.error msg ∧ msg ≠ "" := by
  intro z h
  rcases h with h | ⟨f, hf, hp⟩ | ⟨f, j, hf, hp, hj⟩
  · have he : Zip.handleZipFile z =
        ([], Except.error "image_data.js not found in the ZIP file.") := by
      simp [Zip.handleZipFile, h]
    rw [he]
    exact ⟨rfl, by simp,
      "image_data.js not found in the ZIP file.", rfl, by simp⟩
  · have he : Zip.handleZipFile z =
        ([], Except.error "Unexpected end of JSON input") := by
      simp [Zip.handleZipFile, hf, hp]
    rw [he]
    exact ⟨rfl, by simp, "Unexpected end of JSON input", rfl, by simp⟩
  · have he : Zip.handleZipFile z =
        ([], Except.error "Invalid image_data.js format.") := by
      rcases hj with hj | hj
      · simp [Zip.handleZipFile, hf, hp, hj]
      · cases hd : j.originalDimensions <;>
          simp [Zip.handleZipFile, hf, hp, hd, hj]
    rw [he]
    exact ⟨rfl, by simp, "Invalid image_data.js format.", rfl, by simp⟩

/-- Witness for C9: an archive with no manifest at all is rejected
with no extraction and no publication. -/
theorem c9_witness :
    (Zip.handleZipFile ⟨none, []⟩).1 = [] ∧
    Zip.ZipEvent.published ∉ (Zip.handleZipFile ⟨none, []⟩).1 :=
  ⟨(c9_zip_manifest_guard ⟨none, []⟩ (Or.inl rfl)).1,
    (c9_zip_manifest_guard ⟨none, []⟩ (Or.inl rfl)).2.1⟩

/-- C10: the viewport logic embedded in the standalone export HTML is
extensionally equal to the interactive ImageExplorer logic: clampPan,
getInitialState, handleZoom, handlePan and the visible tile-range
computation agree on all inputs. -/
theorem c10_standalone_equiv :
    (∀ (p : Pan) (w v : Dims),
      Standalone.clampPan p w v = Explorer.clampPan p w v) ∧
    (∀ (orig : Dims) (n : ℤ) (vp : Dims),
      Standalone.getInitialState orig n vp =
        Explorer.getInitialState orig n vp) ∧
    (∀ (orig : Dims) (n : ℤ) (vp : Dims) (s : ViewportState)
      (t : ℤ) (sp : Pan),
      Standalone.handleZoom orig n vp s t sp =
        Explorer.handleZoom orig n vp s t sp) ∧
    (∀ (orig : Dims) (n : ℤ) (vp : Dims) (s : ViewportState)
      (d : Direction),
      Standalone.handlePan orig n vp s d =
        Explorer.handlePan orig n vp s d) ∧
    (∀ (p : Pan) (vp : Dims),
      Standalone.visibleRange p vp = Explorer.visibleRange p vp) := by
  have hws : ∀ (o : Dims) (n i : ℤ),
      Standalone.worldSizeAt o n i = Explorer.worldSizeAt o n i :=
    fun _ _ _ => rfl
  have hcp : ∀ (p : Pan) (w v : Dims),
      Standalone.clampPan p w v = Explorer.clampPan p w v :=
    fun _ _ _ => rfl
  have hgo : ∀ (orig : Dims) (n : ℤ) (vp : Dims) (fuel : ℕ) (i acc : ℤ),
      Standalone.baseIndexGo orig n vp fuel i acc =
        Explorer.baseIndexGo orig n vp fuel i acc := by
    intro orig n vp fuel
    induction fuel with
    | zero => intro i acc; rfl
    | succ m ih =>
      intro i acc
      rw [Standalone.baseIndexGo, Explorer.baseIndexGo]
      simp only [hws]
      by_cases h : (Explorer.worldSizeAt orig n i).width > vp.width ∨
          (Explorer.worldSizeAt orig n i).height > vp.height
      · rw [if_pos h, if_pos h]
      · rw [if_neg h, if_neg h]
        exact ih (i + 1) i
  refine ⟨fun p w v => rfl, ?_, fun o n vp s t sp => rfl,
    fun o n vp s d => rfl, fun p vp => rfl⟩
  intro orig n vp
  unfold Standalone.getInitialState Explorer.getInitialState
  rw [Standalone.getBaseIndex, Explorer.getBaseIndex, hgo]
  simp only [hws, hcp]

end DeepZoom
